import Mathlib

/-!
# Verification of the JU Grade Viewer bot core (src/api.js)

A shallow embedding of the Telegram grade-viewer bot:
its in-memory user directory and conversation state machine
(`handleStart`, `handleGrades`, `handleMessage`) and the portal
scraper (`fetchGradesFromPortal`).

Modelling conventions:
* JavaScript `Map` objects (`users`, `userStates`) become functions
  `Nat → Option _` with pointwise `mapSet` / `mapDelete`.
* Network I/O is abstracted by a `Portal` record holding the responses
  the three `fetch` calls would produce; a transport failure (rejected
  promise while fetching or reading the body) is an `Except.error`.
* HTML parsing with cheerio is abstracted at the selector level:
  the login page is represented by what
  `$(input[name=__RequestVerificationToken]).attr(value)` yields
  (`Option String`, `none` when the field or attribute is absent), and the
  grades page by the list of `tr` rows that the `table#grades tr` selector
  matches, each row being the list of its `td` cell texts (an absent table
  yields the empty row list).
* A thrown JavaScript error that is not caught inside the handler
  (e.g. a `TypeError` from dereferencing `undefined`) is `Except.error`.
* Outbound `bot.sendMessage` calls are collected in order as values of the
  inductive type `Out`, one per message sent.
-/

namespace GradeBot

/-- A user profile as stored in the `users` map (api.js lines 50-55). -/
structure UserProfile where
  telegramId : Nat
  firstName : String
  portalUsername : Option String
  portalPassword : Option String
deriving Repr, DecidableEq

/-- The conversation stage stored in the `userStates` map: the code only
ever stores the strings `awaiting_username` and `awaiting_password`;
absence from the map is the implicit NONE stage. -/
inductive ConvState where
  | awaiting_username
  | awaiting_password
deriving Repr, DecidableEq

/-- JavaScript string-falsiness of an optional string: `null`/`undefined`
and the empty string are falsy (`!user.portalUsername`, `!cookies`). -/
def falsyStr : Option String → Bool
  | none => true
  | some s => s == ""

/-- Strip leading whitespace characters from a character list. -/
def dropLeadingWs : List Char → List Char
  | [] => []
  | c :: cs => if c.isWhitespace then dropLeadingWs cs else c :: cs

/-- JavaScript `String.prototype.trim()`: strip leading and trailing
whitespace.  Defined structurally over the character list (trim the front,
then the front of the reversal) so that it evaluates by reduction. -/
def jsTrim (s : String) : String :=
  ⟨(dropLeadingWs ((dropLeadingWs s.data).reverse)).reverse⟩

/-- JavaScript `x || d` for an optional string `x`
(`csrfToken || `, api.js line 187). -/
def jsOr (o : Option String) (d : String) : String :=
  match o with
  | none => d
  | some s => if s == "" then d else s

/-- A grade record as pushed by the scraper (api.js lines 207-211). -/
structure GradeRecord where
  course : String
  grade : String
  semester : String
deriving Repr, DecidableEq

/-- A transport-level failure: a rejected `fetch` (or body read). -/
structure NetErr where
  msg : String
deriving Repr, DecidableEq

/-- The login page, abstracted to what the scraper extracts from it:
the `value` attribute of the hidden anti-forgery input, `none` when the
input (or its attribute) is absent from the markup. -/
structure LoginPageDoc where
  csrfToken : Option String
deriving Repr, DecidableEq

/-- The login response, abstracted to its `set-cookie` header:
`loginResp.headers.get(set-cookie)` is `none` when the header is absent. -/
structure LoginResp where
  setCookie : Option String
deriving Repr, DecidableEq

/-- The grades page, abstracted to the rows the `table#grades tr` selector
matches: one entry per `tr`, holding the texts of its `td` cells in order.
A page without the `table#grades` element yields `[]`. -/
structure GradesDoc where
  gradesTableRows : List (List String)
deriving Repr, DecidableEq

/-- The form body of the login POST (api.js lines 184-188). -/
structure LoginForm where
  username : String
  password : String
  token : String
deriving Repr, DecidableEq

/-- One outgoing HTTP request of `fetchGradesFromPortal`, recorded for the
request trace. -/
inductive Request where
  | getLoginPage
  | postLogin (form : LoginForm)
  | getGrades (cookie : String)
deriving Repr, DecidableEq

/-- How a `fetchGradesFromPortal` call can fail: a propagated transport
failure, or the explicit
`throw new Error(Login failed: Invalid credentials or portal blocked bot)`
raised when the login response carries no usable `Set-Cookie` header
(api.js line 193).  The spec names these `NetworkError` and
`AuthenticationError` respectively. -/
inductive FetchError where
  | network (e : NetErr)
  | loginFailed
deriving Repr, DecidableEq

/-- The portal as observed by the three `fetch` calls: the response to the
login-page GET, the response to a login POST as a function of the submitted
form, and the response to the grades-page GET as a function of the attached
cookie header.  Each is `Except.error` when that round-trip fails. -/
structure Portal where
  loginPage : Except NetErr LoginPageDoc
  login : LoginForm → Except NetErr LoginResp
  gradesPage : String → Except NetErr GradesDoc

/-- The grades-table scraping loop (api.js lines 203-213): for each row of
`table#grades tr`, if it has at least one `td` (`if (tds.length)`), push a
record from the first three cell texts, trimmed; a missing cell reads as
the empty string (cheerio text of an empty selection). -/
def scrapeGrades (rows : List (List String)) : List GradeRecord :=
  rows.filterMap fun tds =>
    if tds.length = 0 then none
    else some { course := jsTrim (tds.getD 0 "")
                grade := jsTrim (tds.getD 1 "")
                semester := jsTrim (tds.getD 2 "") }

/-- `fetchGradesFromPortal(username, password)` (api.js lines 174-216),
returning the call's outcome together with the trace of portal requests it
issued.  Steps: GET the login page and extract the anti-forgery token
(absent token becomes the empty string via `csrfToken || `); POST the
login form without following redirects; throw when the `set-cookie` header
is falsy; GET the grades page with the cookie attached; scrape the table. -/
def fetchGradesFromPortal (p : Portal) (username password : String) :
    Except FetchError (List GradeRecord) × List Request :=
  match p.loginPage with
  | .error e => (.error (.network e), [.getLoginPage])
  | .ok lp =>
    let form : LoginForm :=
      { username := username, password := password, token := jsOr lp.csrfToken "" }
    match p.login form with
    | .error e => (.error (.network e), [.getLoginPage, .postLogin form])
    | .ok resp =>
      if falsyStr resp.setCookie then
        (.error .loginFailed, [.getLoginPage, .postLogin form])
      else
        let cookies := resp.setCookie.getD ""
        match p.gradesPage cookies with
        | .error e =>
          (.error (.network e), [.getLoginPage, .postLogin form, .getGrades cookies])
        | .ok gh =>
          (.ok (scrapeGrades gh.gradesTableRows),
           [.getLoginPage, .postLogin form, .getGrades cookies])

/-- An inbound Telegram message as used by the handlers:
`msg.chat.id`, `msg.from.id`, `msg.from.first_name`, `msg.text`. -/
structure Msg where
  chatId : Nat
  fromId : Nat
  firstName : String
  text : String
deriving Repr, DecidableEq

/-- One outbound `bot.sendMessage` call, identified by which send site in
api.js produced it (the literal texts are fixed at each site). -/
inductive Out where
  /-- `Welcome to JU Grade Viewer Bot!` (handleStart, line 58) -/
  | welcome
  /-- `Jimma University Grade Viewer - Choose an option below`, with the
  two-button keyboard `[Show Grades, Help]` (showMainMenu, line 35) -/
  | mainMenu
  /-- the help text (handleHelp, line 70) -/
  | helpMsg
  /-- `Please enter your JU portal username:` (handleGrades, line 90) -/
  | promptUsername
  /-- `Now enter your JU portal password:` (handleGrades, line 96) -/
  | promptPassword
  /-- `Username saved! Now enter your password:` (handleMessage, line 138) -/
  | usernameSaved
  /-- `Password saved! Fetching your grades...` (handleMessage, line 148) -/
  | passwordSaved
  /-- `No grades found for your account.` (handleGrades, line 105) -/
  | noGrades
  /-- `Your Grades` followed by one bullet per record (handleGrades, line 114) -/
  | gradesList (gs : List GradeRecord)
  /-- `Failed to fetch grades. Check your credentials or try later.`
  (handleGrades catch branch, line 118) -/
  | fetchFailed
deriving Repr, DecidableEq

/-- The spec's `PromptForUsername` action: the username prompt of
`handleGrades`. -/
def isPromptForUsername : Out → Bool
  | .promptUsername => true
  | _ => false

/-- The spec's `PromptForPassword` action: either the direct password
prompt of `handleGrades` or the `Username saved! Now enter your password`
message of `handleMessage`, both of which ask the user for the password. -/
def isPromptForPassword : Out → Bool
  | .promptPassword => true
  | .usernameSaved => true
  | _ => false

/-- A JavaScript exception escaping a handler (caught only at the HTTP
boundary, which turns it into a 500 response).  `typeError` stands for the
`TypeError` raised by dereferencing `undefined`. -/
inductive JsError where
  | typeError
deriving Repr, DecidableEq

/-- `Map.prototype.set`: pointwise update of the map. -/
def mapSet {β : Type} (m : Nat → Option β) (k : Nat) (v : β) : Nat → Option β :=
  fun k' => if k' = k then some v else m k'

/-- `Map.prototype.delete`: pointwise removal from the map. -/
def mapDelete {β : Type} (m : Nat → Option β) (k : Nat) : Nat → Option β :=
  fun k' => if k' = k then none else m k'

/-- The module-level mutable state: the `users` and `userStates` maps
(api.js lines 19-20). -/
structure BotState where
  users : Nat → Option UserProfile
  userStates : Nat → Option ConvState

/-- The state with both maps empty (process start). -/
def emptyState : BotState :=
  { users := fun _ => none, userStates := fun _ => none }

/-- The conversation stage of a user: `none` is the implicit NONE stage. -/
def stageOf (st : BotState) (userId : Nat) : Option ConvState :=
  st.userStates userId

/-- The profile-creation step of `handleStart` (api.js lines 49-56): if no
profile exists for the identifier, store a fresh one with both portal
credentials `null`.  This is the spec's `ensure(userId, displayName)`. -/
def ensure (users : Nat → Option UserProfile) (userId : Nat)
    (firstName : String) : Nat → Option UserProfile :=
  if (users userId).isSome then users
  else mapSet users userId
    { telegramId := userId, firstName := firstName
      portalUsername := none, portalPassword := none }

/-- `handleStart` (api.js lines 45-64): ensure a profile exists, send the
welcome message and the main menu. -/
def handleStart (st : BotState) (m : Msg) : BotState × List Out :=
  ({ st with users := ensure st.users m.fromId m.firstName },
   [.welcome, .mainMenu])

/-- The rendering of a completed fetch inside `handleGrades`
(api.js lines 104-114): an empty list is reported as `noGrades`, a
non-empty one as the formatted grade list. -/
def renderFetchResult : Except FetchError (List GradeRecord) → Out
  | .error _ => .fetchFailed
  | .ok gs => if gs.length = 0 then .noGrades else .gradesList gs

/-- `handleGrades` (api.js lines 82-120).  `users.get(userId)` yields
`undefined` for an unknown identifier, so `user.portalUsername` throws a
`TypeError` (modelled as `Except.error .typeError`).  A falsy stored
username (resp. password) opens the corresponding conversation stage and
prompts; otherwise `fetchGradesFromPortal` runs inside `try`/`catch`, every
failure being rendered as the generic `fetchFailed` message, with no
mutation of `users` or `userStates`. -/
def handleGrades (p : Portal) (st : BotState) (m : Msg) :
    Except JsError (BotState × List Out) :=
  match st.users m.fromId with
  | none => .error .typeError
  | some user =>
    if falsyStr user.portalUsername then
      .ok ({ st with userStates := mapSet st.userStates m.fromId .awaiting_username },
           [.promptUsername])
    else if falsyStr user.portalPassword then
      .ok ({ st with userStates := mapSet st.userStates m.fromId .awaiting_password },
           [.promptPassword])
    else
      .ok (st, [renderFetchResult
        (fetchGradesFromPortal p (user.portalUsername.getD "")
          (user.portalPassword.getD "")).1])

/-- `handleMessage` (api.js lines 125-169).  An open conversation stage is
served first: `awaiting_username` stores the trimmed text as the portal
username and advances to `awaiting_password`; `awaiting_password` stores
the trimmed text as the portal password, deletes the stage and immediately
re-enters `handleGrades`.  Only with no open stage does the `switch` on the
literal text run, with the main menu as the default case. -/
def handleMessage (p : Portal) (st : BotState) (m : Msg) :
    Except JsError (BotState × List Out) :=
  match st.userStates m.fromId with
  | some .awaiting_username =>
    match st.users m.fromId with
    | none => .error .typeError
    | some user =>
      .ok ({ users := mapSet st.users m.fromId
               { user with portalUsername := some (jsTrim m.text) }
             userStates := mapSet st.userStates m.fromId .awaiting_password },
           [.usernameSaved])
  | some .awaiting_password =>
    match st.users m.fromId with
    | none => .error .typeError
    | some user =>
      let st2 : BotState :=
        { users := mapSet st.users m.fromId
            { user with portalPassword := some (jsTrim m.text) }
          userStates := mapDelete st.userStates m.fromId }
      match handleGrades p st2 m with
      | .error e => .error e
      | .ok (st3, outs) => .ok (st3, .passwordSaved :: outs)
  | none =>
    if m.text = "/start" then .ok (handleStart st m)
    else if m.text = "/help" ∨ m.text = "ℹ️ Help" then .ok (st, [.helpMsg])
    else if m.text = "📊 Show Grades" then handleGrades p st m
    else .ok (st, [.mainMenu])

/-- Fold a list of inbound messages through `handleMessage`: record, after
each step, the sender's conversation stage, and accumulate the outbound
messages of the whole run.  `none` if a JavaScript error escaped a step. -/
def runStages (p : Portal) (st : BotState) (userId : Nat) :
    List Msg → Option (List (Option ConvState) × List Out)
  | [] => some ([], [])
  | m :: ms =>
    match handleMessage p st m with
    | .error _ => none
    | .ok (st2, outs) =>
      match runStages p st2 userId ms with
      | none => none
      | some (stages, outs2) => some (stageOf st2 userId :: stages, outs ++ outs2)

/-- The state of a user who has a profile but no stored credentials and no
open conversation: exactly the state `/start` leaves a new user in. -/
def freshUserState (userId : Nat) (name : String) : BotState :=
  { users := mapSet (fun _ => none) userId
      { telegramId := userId, firstName := name
        portalUsername := none, portalPassword := none }
    userStates := fun _ => none }

/-- A portal wired for a clean handshake: login page carrying token `tok`,
login response carrying cookie header `cookie`, grades page whose
`table#grades tr` selector yields `rows`. -/
def mkPortal (tok cookie : Option String) (rows : List (List String)) : Portal :=
  { loginPage := .ok { csrfToken := tok }
    login := fun _ => .ok { setCookie := cookie }
    gradesPage := fun _ => .ok { gradesTableRows := rows } }

/-- A portal whose login-page fetch fails at the transport level. -/
def downPortal : Portal :=
  { loginPage := .error { msg := "ECONNREFUSED" }
    login := fun _ => .ok { setCookie := none }
    gradesPage := fun _ => .ok { gradesTableRows := [] } }

lemma renderFetchResult_cases (r : Except FetchError (List GradeRecord)) :
    renderFetchResult r = .fetchFailed ∨ renderFetchResult r = .noGrades ∨
      ∃ gs, renderFetchResult r = .gradesList gs := by
  cases r with
  | error e => exact Or.inl rfl
  | ok gs =>
    by_cases h : gs.length = 0
    · exact Or.inr (Or.inl (by simp [renderFetchResult, h]))
    · exact Or.inr (Or.inr ⟨gs, by simp [renderFetchResult, h]⟩)

/-- The scraping step in the words of the spec: one record per row with at
least one data cell, fields taken positionally from the first three cell
texts and trimmed, rows with zero data cells skipped.  Named separately so
that the code-derived `scrapeGrades` can be compared against it. -/
def scrapeGradesSpec (rows : List (List String)) : List GradeRecord :=
  (rows.filter fun r => r.length != 0).map fun r =>
    { course := jsTrim (r.getD 0 "")
      grade := jsTrim (r.getD 1 "")
      semester := jsTrim (r.getD 2 "") }

/-- A state with one profile (no credentials) whose conversation stage is
open at `awaiting_username`. -/
def stAwaitUser : BotState :=
  { users := mapSet (fun _ => none) 7
      { telegramId := 7, firstName := "Al"
        portalUsername := none, portalPassword := none }
    userStates := mapSet (fun _ => none) 7 .awaiting_username }

/-- A state with one profile holding both credentials and no open
conversation stage. -/
def stWithCreds : BotState :=
  { users := mapSet (fun _ => none) 7
      { telegramId := 7, firstName := "Al"
        portalUsername := some "u", portalPassword := some "p" }
    userStates := fun _ => none }

lemma mapSet_same {β : Type} (m : Nat → Option β) (k : Nat) (v : β) :
    mapSet m k v k = some v := by
  simp [mapSet]

lemma mapDelete_same {β : Type} (m : Nat → Option β) (k : Nat) :
    mapDelete m k k = none := by
  simp [mapDelete]

lemma isPromptForUsername_render (r : Except FetchError (List GradeRecord)) :
    isPromptForUsername (renderFetchResult r) = false := by
  cases r with
  | error e => rfl
  | ok gs =>
    by_cases h : gs.length = 0 <;> simp [renderFetchResult, isPromptForUsername, h]

lemma isPromptForPassword_render (r : Except FetchError (List GradeRecord)) :
    isPromptForPassword (renderFetchResult r) = false := by
  cases r with
  | error e => rfl
  | ok gs =>
    by_cases h : gs.length = 0 <;> simp [renderFetchResult, isPromptForPassword, h]

lemma scrapeGrades_eq_spec (rows : List (List String)) :
    scrapeGrades rows = scrapeGradesSpec rows := by
  induction rows with
  | nil => rfl
  | cons r rs ih =>
    by_cases h : r = [] <;>
      simp [scrapeGrades, scrapeGradesSpec, List.filterMap_cons, List.filter_cons, h,
        List.length_eq_zero] <;>
      simpa [scrapeGrades, scrapeGradesSpec] using ih

/-- C9: for every user identifier, `ensure` is idempotent — calling it a
second time with the same identifier leaves the directory (and hence the
stored credentials of the returned profile) unchanged — and a freshly
created profile has both portal credentials `null`. -/
theorem ensure_idempotent_fresh_null :
    ∀ (users : Nat → Option UserProfile) (userId : Nat) (n n2 : String),
      ensure (ensure users userId n) userId n2 = ensure users userId n ∧
      (users userId = none →
        ensure users userId n userId =
          some { telegramId := userId, firstName := n
                 portalUsername := none, portalPassword := none }) := by
  intro users userId n n2
  constructor
  · cases h : users userId with
    | some u => simp [ensure, h]
    | none => simp [ensure, h, mapSet]
  · intro h
    simp [ensure, h, mapSet]

/-- Witness for `ensure_idempotent_fresh_null` at a concrete empty
directory. -/
theorem ensure_idempotent_fresh_null_witness :
    ensure (ensure (fun _ => none) 5 "Al") 5 "Bo" = ensure (fun _ => none) 5 "Al" ∧
    ensure (fun _ => none) 5 "Al" 5 =
      some { telegramId := 5, firstName := "Al"
             portalUsername := none, portalPassword := none } :=
  ⟨(ensure_idempotent_fresh_null (fun _ => none) 5 "Al" "Bo").1,
   (ensure_idempotent_fresh_null (fun _ => none) 5 "Al" "Bo").2 rfl⟩

/-- C6: the scraper emits one `GradeRecord` per row with at least one data
cell, with course/grade/semester the first three cell texts trimmed, and
silently skips rows with zero data cells; in particular the page whose
table rows are `CS101/A/Sem1` followed by a row with zero data cells
yields exactly the one record, also through the full `fetchGradesFromPortal`
pipeline. -/
theorem scrape_one_record_per_nonempty_row :
    (∀ rows, scrapeGrades rows = scrapeGradesSpec rows) ∧
    scrapeGrades [["CS101", "A", "Sem1"], []] =
      [{ course := "CS101", grade := "A", semester := "Sem1" }] ∧
    (fetchGradesFromPortal
        (mkPortal (some "T") (some "cook") [["CS101", "A", "Sem1"], []])
        "alice" "secret").1 =
      .ok [{ course := "CS101", grade := "A", semester := "Sem1" }] := by
  exact ⟨scrapeGrades_eq_spec, rfl, rfl⟩

/-- C10: a grades-table row with exactly one or two data cells still
yields a record, its missing positional columns read as the empty string
(the cheerio text of an absent cell), the row being neither skipped nor an
error. -/
theorem scrape_short_row_pads_empty :
    ∀ (pre post : List (List String)) (r : List String),
      r.length = 1 ∨ r.length = 2 →
      scrapeGrades (pre ++ r :: post) =
        scrapeGrades pre ++
          { course := jsTrim (r.getD 0 ""), grade := jsTrim (r.getD 1 "")
            semester := jsTrim (r.getD 2 "") } :: scrapeGrades post ∧
      jsTrim (r.getD 2 "") = "" ∧
      (r.length = 1 → jsTrim (r.getD 1 "") = "") := by
  intro pre post r h
  have hne : ¬(r = []) := by
    cases h with
    | inl h1 => intro hr; rw [hr] at h1; exact absurd h1 (by decide)
    | inr h2 => intro hr; rw [hr] at h2; exact absurd h2 (by decide)
  refine ⟨?_, ?_, ?_⟩
  · simp [scrapeGrades, List.filterMap_append, List.filterMap_cons, hne]
  · have h2 : r.length ≤ 2 := by rcases h with h | h <;> omega
    rw [List.getD_eq_default _ _ h2]
    rfl
  · intro h1
    have h2 : r.length ≤ 1 := by omega
    rw [List.getD_eq_default _ _ h2]
    rfl

/-- Witness for `scrape_short_row_pads_empty` at a concrete one-cell row
between two other rows. -/
theorem scrape_short_row_pads_empty_witness :
    ((["CS101"] : List String).length = 1 ∨ (["CS101"] : List String).length = 2) ∧
    (scrapeGrades [["A", "B", "C"], ["CS101"], []] =
        scrapeGrades [["A", "B", "C"]] ++
          { course := "CS101", grade := "", semester := "" } :: scrapeGrades [[]] ∧
      jsTrim ((["CS101"] : List String).getD 2 "") = "" ∧
      ((["CS101"] : List String).length = 1 →
        jsTrim ((["CS101"] : List String).getD 1 "") = "")) :=
  ⟨Or.inl rfl, scrape_short_row_pads_empty [["A", "B", "C"]] [[]] ["CS101"] (Or.inl rfl)⟩

/-- C2: a login response carrying no `Set-Cookie` header makes
`fetchGradesFromPortal` fail with the authentication error (`loginFailed`,
the explicit throw — not a `network` transport error), and the request
trace ends at the login POST: no grades-page request is issued. -/
theorem no_cookie_auth_fail_no_grades_request
    (p : Portal) (u pw : String) (lp : LoginPageDoc) (resp : LoginResp)
    (h1 : p.loginPage = .ok lp)
    (h2 : p.login { username := u, password := pw, token := jsOr lp.csrfToken "" } = .ok resp)
    (h3 : resp.setCookie = none) :
    fetchGradesFromPortal p u pw =
      (.error .loginFailed,
       [.getLoginPage,
        .postLogin { username := u, password := pw, token := jsOr lp.csrfToken "" }]) := by
  simp [fetchGradesFromPortal, h1, h2, h3, falsyStr]

/-- Witness for `no_cookie_auth_fail_no_grades_request` at a concrete
portal whose login response has no cookie header. -/
theorem no_cookie_auth_fail_no_grades_request_witness :
    fetchGradesFromPortal (mkPortal (some "T") none []) "alice" "secret" =
      (.error .loginFailed,
       [.getLoginPage,
        .postLogin { username := "alice", password := "secret", token := jsOr (some "T") "" }]) :=
  no_cookie_auth_fail_no_grades_request (mkPortal (some "T") none []) "alice" "secret"
    { csrfToken := some "T" } { setCookie := none } rfl rfl rfl

/-- C8: in step 1 an absent anti-forgery token field is tolerated — the
login form is still submitted, with an empty token value — whereas a
transport failure fetching the login page fails the whole call as a
network error, before any further request. -/
theorem missing_token_tolerated_transport_fatal (p : Portal) (u pw : String) :
    (∀ lp, p.loginPage = .ok lp → lp.csrfToken = none →
      ∃ rest, (fetchGradesFromPortal p u pw).2 =
        .getLoginPage :: .postLogin { username := u, password := pw, token := "" } :: rest) ∧
    (∀ e, p.loginPage = .error e →
      fetchGradesFromPortal p u pw = (.error (.network e), [.getLoginPage])) := by
  constructor
  · intro lp h1 h2
    simp only [fetchGradesFromPortal, h1, h2, jsOr]
    cases hl : p.login { username := u, password := pw, token := "" } with
    | error e => exact ⟨[], rfl⟩
    | ok resp =>
      by_cases hf : falsyStr resp.setCookie
      · exact ⟨[], by simp [hf]⟩
      · cases hg : p.gradesPage (resp.setCookie.getD "") with
        | error e =>
          exact ⟨[.getGrades (resp.setCookie.getD "")], by simp [hf, hg]⟩
        | ok gh =>
          exact ⟨[.getGrades (resp.setCookie.getD "")], by simp [hf, hg]⟩
  · intro e h1
    simp [fetchGradesFromPortal, h1]

/-- Witness for `missing_token_tolerated_transport_fatal`: a portal with
no token field on the login page, and a portal whose login-page fetch
fails. -/
theorem missing_token_tolerated_transport_fatal_witness :
    (∃ rest, (fetchGradesFromPortal (mkPortal none (some "ck") []) "a" "b").2 =
      .getLoginPage :: .postLogin { username := "a", password := "b", token := "" } :: rest) ∧
    fetchGradesFromPortal downPortal "a" "b" =
      (.error (.network { msg := "ECONNREFUSED" }), [.getLoginPage]) :=
  ⟨(missing_token_tolerated_transport_fatal (mkPortal none (some "ck") []) "a" "b").1
      { csrfToken := none } rfl rfl,
   (missing_token_tolerated_transport_fatal downPortal "a" "b").2
      { msg := "ECONNREFUSED" } rfl⟩

/-- C7: when the grades table is entirely absent from the grades page (the
`table#grades tr` selector matches nothing) the call returns the empty
list — the code has no parse error to raise — and the rendering step of
`handleGrades` reports an empty result with the `noGrades` message, a send
site distinct from the `fetchFailed` message used for authentication and
network failures. -/
theorem absent_table_empty_list_no_grades_msg
    (p : Portal) (u pw c : String) (lp : LoginPageDoc)
    (h1 : p.loginPage = .ok lp)
    (h2 : p.login { username := u, password := pw, token := jsOr lp.csrfToken "" } =
      .ok { setCookie := some c })
    (h3 : c ≠ "")
    (h4 : p.gradesPage c = .ok { gradesTableRows := [] }) :
    (fetchGradesFromPortal p u pw).1 = .ok [] ∧
    renderFetchResult (fetchGradesFromPortal p u pw).1 = .noGrades ∧
    Out.noGrades ≠ Out.fetchFailed := by
  have hc : falsyStr (some c) = false := by simp [falsyStr, h3]
  have hfe : (fetchGradesFromPortal p u pw).1 = .ok [] := by
    simp [fetchGradesFromPortal, h1, h2, hc, h4, scrapeGrades]
  exact ⟨hfe, by rw [hfe]; rfl, by simp⟩

/-- Witness for `absent_table_empty_list_no_grades_msg` at a concrete
portal with a clean handshake and a grades page without the table. -/
theorem absent_table_empty_list_no_grades_msg_witness :
    (fetchGradesFromPortal (mkPortal (some "T") (some "ck") []) "alice" "secret").1 = .ok [] ∧
    renderFetchResult
      (fetchGradesFromPortal (mkPortal (some "T") (some "ck") []) "alice" "secret").1 = .noGrades ∧
    Out.noGrades ≠ Out.fetchFailed :=
  absent_table_empty_list_no_grades_msg (mkPortal (some "T") (some "ck") []) "alice" "secret"
    "ck" { csrfToken := some "T" } rfl rfl (by decide) rfl

/-- C1 (refuted by the code): a profile is created only by `/start`
(`handleStart`), so a sender whose first inbound message is anything else
has no profile afterwards; in particular a first `📊 Show Grades` message
makes `handleGrades` look up the sender's profile, find `undefined` and
throw a `TypeError` (surfaced as a 500 at the HTTP boundary), while a
first `/help` message is handled but still creates no profile. -/
theorem profile_missing_without_start :
    handleMessage (mkPortal (some "T") (some "ck") []) emptyState
        { chatId := 1, fromId := 7, firstName := "Al", text := "📊 Show Grades" } =
      .error .typeError ∧
    handleMessage (mkPortal (some "T") (some "ck") []) emptyState
        { chatId := 1, fromId := 7, firstName := "Al", text := "/help" } =
      .ok (emptyState, [.helpMsg]) ∧
    emptyState.users 7 = none :=
  ⟨rfl, rfl, rfl⟩

/-- C4: with an open conversation stage the inbound text is consumed as
the awaited credential whatever its literal content (a `/help` text
included), and none of the dispatch outputs (help, welcome, main-menu
fallback) is produced; the command/button dispatch and the default menu
fallback run only when no stage is open. -/
theorem open_stage_consumes_text_as_credential
    (p : Portal) (st : BotState) (m : Msg) (user : UserProfile)
    (hu : st.users m.fromId = some user) :
    (st.userStates m.fromId = some .awaiting_username →
      handleMessage p st m =
        .ok ({ users := mapSet st.users m.fromId
                 { user with portalUsername := some (jsTrim m.text) }
               userStates := mapSet st.userStates m.fromId .awaiting_password },
             [.usernameSaved])) ∧
    (st.userStates m.fromId = some .awaiting_password →
      ∃ st' rest,
        handleMessage p st m = .ok (st', .passwordSaved :: rest) ∧
        st'.users m.fromId = some { user with portalPassword := some (jsTrim m.text) } ∧
        Out.helpMsg ∉ (Out.passwordSaved :: rest) ∧
        Out.welcome ∉ (Out.passwordSaved :: rest) ∧
        Out.mainMenu ∉ (Out.passwordSaved :: rest)) ∧
    (st.userStates m.fromId = none →
      (m.text = "/help" → handleMessage p st m = .ok (st, [.helpMsg])) ∧
      (m.text ∉ (["/start", "/help", "ℹ️ Help", "📊 Show Grades"] : List String) →
        handleMessage p st m = .ok (st, [.mainMenu]))) := by
  refine ⟨?_, ?_, ?_⟩
  · intro hs
    simp [handleMessage, hs, hu]
  · intro hs
    by_cases hfu : falsyStr user.portalUsername
    · refine ⟨{ users := mapSet st.users m.fromId
                  { user with portalPassword := some (jsTrim m.text) }
                userStates := mapSet (mapDelete st.userStates m.fromId) m.fromId
                  .awaiting_username },
              [.promptUsername], ?_, ?_, ?_, ?_, ?_⟩ <;>
        simp [handleMessage, handleGrades, hs, hu, mapSet_same, hfu]
    · by_cases hfp : falsyStr (some (jsTrim m.text))
      · refine ⟨{ users := mapSet st.users m.fromId
                    { user with portalPassword := some (jsTrim m.text) }
                  userStates := mapSet (mapDelete st.userStates m.fromId) m.fromId
                    .awaiting_password },
                [.promptPassword], ?_, ?_, ?_, ?_, ?_⟩ <;>
          simp [handleMessage, handleGrades, hs, hu, mapSet_same, hfu, hfp]
      · refine ⟨{ users := mapSet st.users m.fromId
                    { user with portalPassword := some (jsTrim m.text) }
                  userStates := mapDelete st.userStates m.fromId },
            [renderFetchResult
              (fetchGradesFromPortal p (user.portalUsername.getD "") (jsTrim m.text)).1],
            ?_, ?_, ?_, ?_, ?_⟩ <;>
          rcases renderFetchResult_cases
            (fetchGradesFromPortal p (user.portalUsername.getD "") (jsTrim m.text)).1
            with hr | hr | ⟨gs, hr⟩ <;>
          simp [handleMessage, handleGrades, hs, hu, mapSet_same, hfu, hfp, hr]
  · intro hs
    constructor
    · intro ht
      simp [handleMessage, hs, ht]
    · intro hnm
      simp only [List.mem_cons, List.not_mem_nil, or_false, not_or] at hnm
      obtain ⟨n1, n2, n3, n4⟩ := hnm
      simp [handleMessage, hs, n1, n2, n3, n4]

/-- Witness for `open_stage_consumes_text_as_credential`: a user in stage
AWAITING_USERNAME sends the literal `/help`; it is stored as the username
and no help message is produced. -/
theorem open_stage_consumes_text_as_credential_witness :
    handleMessage (mkPortal (some "T") (some "ck") []) stAwaitUser
        { chatId := 1, fromId := 7, firstName := "Al", text := "/help" } =
      .ok ({ users := mapSet stAwaitUser.users 7
               { telegramId := 7, firstName := "Al"
                 portalUsername := some (jsTrim "/help"), portalPassword := none }
             userStates := mapSet stAwaitUser.userStates 7 .awaiting_password },
           [.usernameSaved]) :=
  (open_stage_consumes_text_as_credential (mkPortal (some "T") (some "ck") []) stAwaitUser
      { chatId := 1, fromId := 7, firstName := "Al", text := "/help" }
      { telegramId := 7, firstName := "Al", portalUsername := none, portalPassword := none }
      rfl).1 rfl

/-- C5: when the grade fetch fails with any error, `handleGrades` reports
`fetchFailed` and leaves the user's stored credentials and NONE stage
untouched; a subsequent grade request reaches the fetch again with the
same stored credentials, emitting no username or password prompt. -/
theorem failed_fetch_keeps_credentials_and_stage
    (p p2 : Portal) (st : BotState) (m : Msg) (user : UserProfile)
    (u0 pw0 : String) (err : FetchError)
    (hu : st.users m.fromId = some user)
    (h1 : user.portalUsername = some u0) (h2 : u0 ≠ "")
    (h3 : user.portalPassword = some pw0) (h4 : pw0 ≠ "")
    (hs : st.userStates m.fromId = none)
    (hf : (fetchGradesFromPortal p u0 pw0).1 = .error err) :
    ∃ st',
      handleGrades p st m = .ok (st', [.fetchFailed]) ∧
      st'.users m.fromId = some user ∧
      stageOf st' m.fromId = none ∧
      handleGrades p2 st' m =
        .ok (st', [renderFetchResult (fetchGradesFromPortal p2 u0 pw0).1]) ∧
      isPromptForUsername (renderFetchResult (fetchGradesFromPortal p2 u0 pw0).1) = false ∧
      isPromptForPassword (renderFetchResult (fetchGradesFromPortal p2 u0 pw0).1) = false := by
  have hfu : falsyStr (some u0) = false := by
    simp [falsyStr, h2]
  have hfp : falsyStr (some pw0) = false := by
    simp [falsyStr, h4]
  refine ⟨st, ?_, hu, hs, ?_, isPromptForUsername_render _, isPromptForPassword_render _⟩
  · simp [handleGrades, hu, hfu, hfp, h1, h3, hf, renderFetchResult]
  · simp [handleGrades, hu, hfu, hfp, h1, h3]

/-- Witness for `failed_fetch_keeps_credentials_and_stage`: stored
credentials `u`/`p`, portal unreachable, retried against the same
unreachable portal. -/
theorem failed_fetch_keeps_credentials_and_stage_witness :
    ∃ st',
      handleGrades downPortal stWithCreds
          { chatId := 1, fromId := 7, firstName := "Al", text := "📊 Show Grades" } =
        .ok (st', [.fetchFailed]) ∧
      st'.users 7 = some { telegramId := 7, firstName := "Al"
                           portalUsername := some "u", portalPassword := some "p" } ∧
      stageOf st' 7 = none ∧
      handleGrades downPortal st'
          { chatId := 1, fromId := 7, firstName := "Al", text := "📊 Show Grades" } =
        .ok (st', [renderFetchResult (fetchGradesFromPortal downPortal "u" "p").1]) ∧
      isPromptForUsername (renderFetchResult (fetchGradesFromPortal downPortal "u" "p").1) =
        false ∧
      isPromptForPassword (renderFetchResult (fetchGradesFromPortal downPortal "u" "p").1) =
        false :=
  failed_fetch_keeps_credentials_and_stage downPortal downPortal stWithCreds
    { chatId := 1, fromId := 7, firstName := "Al", text := "📊 Show Grades" }
    { telegramId := 7, firstName := "Al", portalUsername := some "u", portalPassword := some "p" }
    "u" "p" (.network { msg := "ECONNREFUSED" })
    rfl rfl (by decide) rfl (by decide) rfl rfl

/-- C3 counterexample: the claim quantifies over texts of arbitrary
literal content, but `handleMessage` stores `text.trim()` without checking
it is nonempty.  With first credential text `" "` the stored username is
the empty (falsy) string, so the automatic grade request after the second
text re-prompts for the username: the run emits `PromptForUsername` twice
(not once) and ends in stage AWAITING_USERNAME (not NONE). -/
theorem fresh_user_blank_text_breaks_sequence :
    runStages (mkPortal (some "T") (some "ck") []) (freshUserState 7 "Al") 7
        [{ chatId := 1, fromId := 7, firstName := "Al", text := "📊 Show Grades" },
         { chatId := 1, fromId := 7, firstName := "Al", text := " " },
         { chatId := 1, fromId := 7, firstName := "Al", text := "secret" }] =
      some ([some .awaiting_username, some .awaiting_password, some .awaiting_username],
            [.promptUsername, .usernameSaved, .passwordSaved, .promptUsername]) ∧
    ([Out.promptUsername, .usernameSaved, .passwordSaved, .promptUsername].countP
        isPromptForUsername = 2) ∧
    some ConvState.awaiting_username ≠ (none : Option ConvState) :=
  ⟨rfl, rfl, by simp⟩

/-- C3 (amended): for a fresh user (profile present, both credentials
`null`, stage NONE) who requests grades and then supplies two texts that
are nonempty after trimming — their literal content otherwise arbitrary,
command keywords included — the stage sequence is exactly
NONE → AWAITING_USERNAME → AWAITING_PASSWORD → NONE, with exactly one
PromptForUsername and exactly one PromptForPassword emitted. -/
theorem fresh_user_stage_sequence
    (p : Portal) (st0 : BotState) (uid cid : Nat) (name t1 t2 : String) (user : UserProfile)
    (hu : st0.users uid = some user)
    (hun : user.portalUsername = none) (hup : user.portalPassword = none)
    (hs : st0.userStates uid = none)
    (h1 : jsTrim t1 ≠ "") (h2 : jsTrim t2 ≠ "") :
    stageOf st0 uid = none ∧
    ∃ outs,
      runStages p st0 uid
          [{ chatId := cid, fromId := uid, firstName := name, text := "📊 Show Grades" },
           { chatId := cid, fromId := uid, firstName := name, text := t1 },
           { chatId := cid, fromId := uid, firstName := name, text := t2 }] =
        some ([some .awaiting_username, some .awaiting_password, none], outs) ∧
      outs.countP isPromptForUsername = 1 ∧
      outs.countP isPromptForPassword = 1 := by
  have hft1 : falsyStr (some (jsTrim t1)) = false := by simp [falsyStr, h1]
  have hft2 : falsyStr (some (jsTrim t2)) = false := by simp [falsyStr, h2]
  have e1 : handleMessage p st0 (Msg.mk cid uid name "📊 Show Grades") =
      .ok ({ users := st0.users
             userStates := mapSet st0.userStates uid .awaiting_username },
           [.promptUsername]) := by
    simp [handleMessage, handleGrades, hs, hu, hun, falsyStr]
  have e2 : handleMessage p
      { users := st0.users
        userStates := mapSet st0.userStates uid .awaiting_username }
      { chatId := cid, fromId := uid, firstName := name, text := t1 } =
      .ok ({ users := mapSet st0.users uid { user with portalUsername := some (jsTrim t1) }
             userStates := mapSet (mapSet st0.userStates uid .awaiting_username) uid
               .awaiting_password },
           [.usernameSaved]) := by
    simp [handleMessage, hu, mapSet_same]
  have e3 : handleMessage p
      { users := mapSet st0.users uid { user with portalUsername := some (jsTrim t1) }
        userStates := mapSet (mapSet st0.userStates uid .awaiting_username) uid
          .awaiting_password }
      { chatId := cid, fromId := uid, firstName := name, text := t2 } =
      .ok (BotState.mk
            (mapSet
              (mapSet st0.users uid
                (UserProfile.mk user.telegramId user.firstName (some (jsTrim t1))
                  user.portalPassword))
              uid
              (UserProfile.mk user.telegramId user.firstName (some (jsTrim t1))
                (some (jsTrim t2))))
            (mapDelete
              (mapSet (mapSet st0.userStates uid .awaiting_username) uid .awaiting_password)
              uid),
           [.passwordSaved,
            renderFetchResult (fetchGradesFromPortal p (jsTrim t1) (jsTrim t2)).1]) := by
    simp [handleMessage, handleGrades, mapSet_same, mapDelete_same, hft1, hft2]
  refine ⟨hs, [Out.promptUsername, .usernameSaved, .passwordSaved,
    renderFetchResult (fetchGradesFromPortal p (jsTrim t1) (jsTrim t2)).1], ?_, ?_, ?_⟩
  · simp only [runStages, e1, e2, e3]
    simp [stageOf, mapSet_same, mapDelete_same]
  · rcases renderFetchResult_cases (fetchGradesFromPortal p (jsTrim t1) (jsTrim t2)).1
      with hr | hr | ⟨gs, hr⟩ <;>
      simp [hr, List.countP_cons, isPromptForUsername]
  · rcases renderFetchResult_cases (fetchGradesFromPortal p (jsTrim t1) (jsTrim t2)).1
      with hr | hr | ⟨gs, hr⟩ <;>
      simp [hr, List.countP_cons, isPromptForPassword]

/-- Witness for `fresh_user_stage_sequence`: the two texts are `/help` and
`secret`, both nonempty after trimming. -/
theorem fresh_user_stage_sequence_witness :
    jsTrim "/help" ≠ "" ∧ jsTrim "secret" ≠ "" ∧
    (stageOf (freshUserState 7 "Al") 7 = none ∧
      ∃ outs,
        runStages (mkPortal (some "T") (some "ck") []) (freshUserState 7 "Al") 7
            [{ chatId := 1, fromId := 7, firstName := "Al", text := "📊 Show Grades" },
             { chatId := 1, fromId := 7, firstName := "Al", text := "/help" },
             { chatId := 1, fromId := 7, firstName := "Al", text := "secret" }] =
          some ([some .awaiting_username, some .awaiting_password, none], outs) ∧
        outs.countP isPromptForUsername = 1 ∧
        outs.countP isPromptForPassword = 1) :=
  ⟨by decide, by decide,
   fresh_user_stage_sequence (mkPortal (some "T") (some "ck") []) (freshUserState 7 "Al")
     7 1 "Al" "/help" "secret"
     { telegramId := 7, firstName := "Al", portalUsername := none, portalPassword := none }
     rfl rfl rfl rfl (by decide) (by decide)⟩

end GradeBot
